import Mathlib

/-!
Verification of the transcript acquisition and normalization pipeline of the
ArticleI blog application.

The definitions below are a shallow embedding of the Python sources:

* `blog_generator/transcription/exceptions.py` — the typed error hierarchy
  (dual technical / user-facing messages, user-fault classification);
* `blog_generator/transcription/config.py` — the configured limits;
* `blog_generator/transcription/audio_extractor.py` — duration validation,
  the disk-space gate, the audio extraction sequence and cleanup;
* `blog_generator/transcription/whisper_service.py` — the model cache and
  the transcription stage boundary;
* `blog_generator/transcription/transcript_cleaner.py` — the text cleaning
  pipeline and sentence segmentation;
* `blog_generator/views.py` — the orchestrator `yt_transcript` with its
  subtitle / ASR / description fallback policy, and the description
  cleaning in `extract_subtitles`.

Python strings are embedded as `String` (both count code points), machine
side effects (filesystem, network, the Whisper engine) are embedded as
explicit environment records and state passing, and `raise`/`except` is
embedded as `Except` with explicit handler functions.
-/

namespace ArticleI

/-! ### Python string primitives -/

/-- Characters Python's `str.strip` and the regex class `\s` treat as
whitespace (ASCII range, which is all the sources rely on). -/
def isPyWs (c : Char) : Bool :=
  c = ' ' || c = '\t' || c = '\n' || c = '\r' || c = '\x0b' || c = '\x0c'

/-- `str.strip()` on a character list. -/
def pyStripList (l : List Char) : List Char :=
  ((l.dropWhile isPyWs).reverse.dropWhile isPyWs).reverse

/-- Python `s.strip()`. -/
def pyStrip (s : String) : String :=
  ⟨pyStripList s.data⟩

/-- Python `s[:n]` (slicing counts code points, as does `String.length`). -/
def pyTake (s : String) (n : Nat) : String :=
  ⟨s.data.take n⟩

/-- Python `pat in s` (substring containment). -/
def containsStr (s pat : String) : Bool :=
  decide (pat.data <:+: s.data)

/-- Python `s.lower()` (ASCII lowering, all messages involved are ASCII). -/
def pyLower (s : String) : String :=
  ⟨s.data.map Char.toLower⟩

/-! ### `transcription/exceptions.py` — the error hierarchy

Each Python exception class becomes a tag in `ErrKind` plus a constructor
function building the `(message, user_message)` payload exactly as the
class `__init__` does.  The class hierarchy (which `except` clauses match
on) is reproduced by the `isAudioExtraction` / `isWhisper` predicates. -/

/-- One tag per concrete class of the `TranscriptionError` hierarchy. -/
inductive ErrKind where
  | transcription
  | audioExtraction
  | invalidURL
  | durationLimit
  | network
  | diskSpace
  | fsPermission
  | whisper
  | modelLoad
  | transcriptionTimeout
  | audioFormat
  | outOfMemory
  | transcriptCleaning
deriving Repr, DecidableEq

/-- The payload every `TranscriptionError` carries: a technical `message`
and a `user_message` (`self.user_message = user_message or message`). -/
structure ErrData where
  message : String
  user_message : String
deriving Repr, DecidableEq

/-- A raised member of the hierarchy: its dynamic class plus payload. -/
structure TErr where
  kind : ErrKind
  data : ErrData
deriving Repr, DecidableEq

/-- `TranscriptionError.__init__(message, user_message=None)`:
`self.user_message = user_message or message` (Python `or` falls back to
`message` when `user_message` is `None` or empty). -/
def mkErrData (message : String) (user_message : Option String) : ErrData :=
  { message := message
    user_message :=
      match user_message with
      | none => message
      | some u => if u = "" then message else u }

/-- The base class `TranscriptionError`, constructed directly. -/
def TranscriptionError (message : String) (user_message : Option String) : TErr :=
  { kind := .transcription, data := mkErrData message user_message }

/-- `AudioExtractionError` — a pass-through subclass: same `__init__` as the
base, so `user_message` again defaults to the technical message. -/
def AudioExtractionError (message : String) : TErr :=
  { kind := .audioExtraction, data := mkErrData message none }

/-- `InvalidURLError.__init__`. -/
def InvalidURLError (message : String) : TErr :=
  { kind := .invalidURL
    data := mkErrData message
      (some "Please provide a valid YouTube URL. The video may be private or unavailable.") }

/-- `DurationLimitError.__init__`: the user message is the technical message
itself when it mentions "minute", otherwise a canned phrase. -/
def DurationLimitError (message : String) : TErr :=
  { kind := .durationLimit
    data := mkErrData message
      (some (if containsStr (pyLower message) "minute" then message
             else "Video exceeds maximum duration limit. Please try a shorter video.")) }

/-- `NetworkError.__init__`. -/
def NetworkError (message : String) : TErr :=
  { kind := .network
    data := mkErrData message
      (some "Network error occurred. Please check your connection and try again.") }

/-- `DiskSpaceError.__init__`. -/
def DiskSpaceError (message : String) : TErr :=
  { kind := .diskSpace
    data := mkErrData message
      (some "Server storage is full. Please contact the administrator.") }

/-- `FileSystemPermissionError.__init__`. -/
def FileSystemPermissionError (message : String) : TErr :=
  { kind := .fsPermission
    data := mkErrData message
      (some "File system error occurred. Please contact the administrator.") }

/-- `WhisperError` — a pass-through subclass like `AudioExtractionError`. -/
def WhisperError (message : String) : TErr :=
  { kind := .whisper, data := mkErrData message none }

/-- `ModelLoadError.__init__`. -/
def ModelLoadError (message : String) : TErr :=
  { kind := .modelLoad
    data := mkErrData message
      (some "Transcription service is temporarily unavailable. Please try again later.") }

/-- `TranscriptionTimeoutError.__init__`. -/
def TranscriptionTimeoutError (message : String) : TErr :=
  { kind := .transcriptionTimeout
    data := mkErrData message
      (some "Transcription timed out. The video may be too long. Please try a shorter video.") }

/-- `AudioFormatError.__init__`. -/
def AudioFormatError (message : String) : TErr :=
  { kind := .audioFormat
    data := mkErrData message
      (some "Audio file is corrupted or invalid. Please try a different video.") }

/-- `OutOfMemoryError.__init__` (the custom class, not the builtin). -/
def OutOfMemoryError (message : String) : TErr :=
  { kind := .outOfMemory
    data := mkErrData message
      (some "Video is too large to process. Please try a shorter video or contact the administrator.") }

/-- `TranscriptCleaningError.__init__`. -/
def TranscriptCleaningError (message : String) : TErr :=
  { kind := .transcriptCleaning
    data := mkErrData message
      (some "Failed to process transcript text. The content may be invalid.") }

/-- `is_user_error(exception)`: true exactly for `InvalidURLError`,
`DurationLimitError`, `AudioFormatError`. -/
def is_user_error (e : TErr) : Bool :=
  e.kind = .invalidURL || e.kind = .durationLimit || e.kind = .audioFormat

/-- A string leaks internal detail if it mentions a filesystem path (a `/`)
or a numeric component of an IP address / port (any digit).  Used to state
the no-leak invariant over the canned user messages, none of which contain
either. -/
def leaksInternal (s : String) : Bool :=
  s.data.any (fun c => c = '/' || c.isDigit)

/-! ### A small `re.sub` engine

The cleaner applies a fixed list of concrete regular expressions with
`re.sub`.  Each one is embedded as a hand-written matcher over the
character list; `reSubC` reproduces `re.sub`'s left-to-right scan with a
constant replacement.  The matcher receives the previous original
character so that `^` (MULTILINE) and `\b` contexts can be checked. -/

/-- Match one literal character. -/
def mChar (c : Char) : List Char → Option (List Char)
  | d :: rest => if d = c then some rest else none
  | [] => none

/-- Match one decimal digit (`\d`). -/
def mDigit : List Char → Option (List Char)
  | d :: rest => if d.isDigit then some rest else none
  | [] => none

/-- Match exactly `n` decimal digits. -/
def mDigits : Nat → List Char → Option (List Char)
  | 0, l => some l
  | n + 1, l => mDigit l >>= mDigits n

/-- Consume `\s*` (maximal, no backtracking needed where used: the
following literal is never a whitespace character). -/
def skipWs (l : List Char) : List Char := l.dropWhile isPyWs

/-- `re.sub(pattern, repl, s)` with a constant replacement: scan left to
right; where the matcher succeeds, emit `repl`, resume after the match
(tracking the last consumed original character as the new left context);
where it fails, emit the character and advance one position.  `fuel` is
initialised to the input length, which suffices because every matcher
used consumes at least one character. -/
def reSubC (repl : List Char) (m : Option Char → List Char → Option (List Char)) :
    Nat → Option Char → List Char → List Char
  | _, _, [] => []
  | 0, _, l => l
  | fuel + 1, prev, c :: rest =>
    match m prev (c :: rest) with
    | some rest' =>
      let consumed := (c :: rest).take ((c :: rest).length - rest'.length)
      repl ++ reSubC repl m fuel (consumed.getLast?.orElse (fun _ => prev)) rest'
    | none => c :: reSubC repl m fuel (some c) rest

/-- String-level wrapper for `reSubC`. -/
def pyReSub (repl : String) (m : Option Char → List Char → Option (List Char))
    (s : String) : String :=
  ⟨reSubC repl.data m s.data.length none s.data⟩

/-! ### `transcription/transcript_cleaner.py` -/

/-- `\d{1,2}:\d{2}` — the greedy `{1,2}` tries two digits first and
backtracks to one if the following `:` does not match. -/
def mHM (l : List Char) : Option (List Char) :=
  ((mDigits 2 l >>= mChar ':') <|> (mDigits 1 l >>= mChar ':')) >>= mDigits 2

/-- `OPN\d{1,2}:\d{2}(?::\d{2})?CLS` — the bracketed timestamp patterns of
`remove_timestamps` (square, round and angle brackets). -/
def mBracketTs (opn cls : Char) (l : List Char) : Option (List Char) :=
  mChar opn l >>= fun l1 => mHM l1 >>= fun l2 =>
    ((mChar ':' l2 >>= mDigits 2) >>= mChar cls) <|> mChar cls l2

/-- `\d{2}:\d{2}:\d{2}`. -/
def mSrtTime (l : List Char) : Option (List Char) :=
  mDigits 2 l >>= mChar ':' >>= mDigits 2 >>= mChar ':' >>= mDigits 2

/-- `(?:,\d{3})?` (greedy, with backtracking into the continuation `k`). -/
def mOptMs (k : List Char → Option (List Char)) (l : List Char) : Option (List Char) :=
  ((mChar ',' l >>= mDigits 3) >>= k) <|> k l

/-- The SRT timestamp pattern
`\d{2}:\d{2}:\d{2}(?:,\d{3})?\s*-->\s*\d{2}:\d{2}:\d{2}(?:,\d{3})?`. -/
def mSrt (l : List Char) : Option (List Char) :=
  mSrtTime l >>= mOptMs (fun l1 =>
    let l2 := skipWs l1
    mChar '-' l2 >>= mChar '-' >>= mChar '>' >>= fun l3 =>
      mSrtTime (skipWs l3) >>= mOptMs some)

/-- `remove_timestamps`: the five `re.sub` passes, in source order.  The
last pattern `^\d{1,2}:\d{2}(?::\d{2})?\s*` uses `re.MULTILINE`, so it
only fires at the start of the string or right after a newline. -/
def remove_timestamps (text : String) : String :=
  let t1 := pyReSub "" (fun _ l => mBracketTs '[' ']' l) text
  let t2 := pyReSub "" (fun _ l => mBracketTs '(' ')' l) t1
  let t3 := pyReSub "" (fun _ l => mSrt l) t2
  let t4 := pyReSub "" (fun _ l => mBracketTs '<' '>' l) t3
  pyReSub "" (fun prev l =>
    if prev = none || prev = some '\n' then
      (mHM l >>= fun l1 => ((mChar ':' l1 >>= mDigits 2) <|> some l1)).map skipWs
    else none) t4

/-- `\w` — a word character for `\b` boundaries (`[A-Za-z0-9_]`; the
transcripts involved are ASCII). -/
def isWordChar (c : Char) : Bool := c.isAlphanum || c = '_'

/-- Case-insensitive literal word match. -/
def mWordCI : List Char → List Char → Option (List Char)
  | [], l => some l
  | w :: ws, c :: rest => if c.toLower = w.toLower then mWordCI ws rest else none
  | _ :: _, [] => none

/-- `\bWORD\b` with `re.IGNORECASE`: a word boundary before (the previous
character is not a word character), the literal, and a word boundary
after (the next character, if any, is not a word character). -/
def mFiller (w : String) (prev : Option Char) (l : List Char) : Option (List Char) :=
  if (prev.map isWordChar).getD false then none
  else
    mWordCI w.data l >>= fun rest =>
      match rest with
      | [] => some []
      | c :: _ => if isWordChar c then none else some rest

/-- `FILLER_WORDS` of `transcript_cleaner.py`, in source order. -/
def FILLER_WORDS : List String :=
  ["um", "uh", "like", "you know", "I mean", "so", "basically", "actually",
   "literally", "kind of", "sort of", "yeah", "okay", "well", "right",
   "alright", "mm", "hmm", "uh-huh", "uh huh", "mm-hmm", "mm hmm"]

/-- `remove_filler_words`: one case-insensitive `re.sub(filler, ' ', ...)`
pass per filler pattern, applied sequentially. -/
def remove_filler_words (text : String) : String :=
  FILLER_WORDS.foldl (fun t w => pyReSub " " (mFiller w) t) text

/-- The punctuation class `[.,!?;:]` of `fix_spacing`/`fix_punctuation`. -/
def isPunctCls (c : Char) : Bool :=
  c = '.' || c = ',' || c = '!' || c = '?' || c = ';' || c = ':'

/-- ASCII letter (`[A-Za-z]`). -/
def isAsciiLetter (c : Char) : Bool :=
  ('A' ≤ c && c ≤ 'Z') || ('a' ≤ c && c ≤ 'z')

/-- Replace every maximal run of characters satisfying `p` by `out`
(embeds `re.sub(r'X+', out, s)`; also `re.sub(r' {2,}', ' ', s)`, since a
run of length one is then rewritten to itself). -/
def collapseRunsBy (p : Char → Bool) (out : List Char) : Bool → List Char → List Char
  | _, [] => []
  | inRun, c :: rest =>
    if p c then (if inRun then [] else out) ++ collapseRunsBy p out true rest
    else c :: collapseRunsBy p out false rest

/-- `re.sub(r'\s+([.,!?;:])', r'\1', s)`: every maximal whitespace run
immediately followed by a punctuation character is deleted.  Implemented
as a scan over the reversed string (drop whitespace while the last kept
character was punctuation). -/
def rmWsBeforePunctRev : Bool → List Char → List Char
  | _, [] => []
  | afterPunct, c :: rest =>
    if isPunctCls c then c :: rmWsBeforePunctRev true rest
    else if isPyWs c && afterPunct then rmWsBeforePunctRev true rest
    else c :: rmWsBeforePunctRev false rest

/-- `re.sub(r'([.,!?;:])([A-Za-z])', r'\1 \2', s)`: insert a space between
punctuation and a directly following letter.  Resuming at the letter is
equivalent to resuming after it, since a letter never starts a match. -/
def addSpaceAfterPunct : List Char → List Char
  | [] => []
  | [c] => [c]
  | c :: d :: rest =>
    if isPunctCls c && isAsciiLetter d then c :: ' ' :: addSpaceAfterPunct (d :: rest)
    else c :: addSpaceAfterPunct (d :: rest)

/-- Split a string into maximal runs of `p`-characters and non-`p`
characters, each tagged with its class. -/
def runsAux (p : Char → Bool) : Option (Bool × List Char) → List Char → List (Bool × List Char)
  | cur, [] =>
    match cur with
    | none => []
    | some (b, acc) => [(b, acc.reverse)]
  | cur, c :: rest =>
    match cur with
    | none => runsAux p (some (p c, [c])) rest
    | some (b, acc) =>
      if p c = b then runsAux p (some (b, c :: acc)) rest
      else (b, acc.reverse) :: runsAux p (some (p c, [c])) rest

/-- Per-run action of `re.sub(r'^\s+|\s+$', '', s, flags=re.MULTILINE)`.
Tracing the alternation's scan over the original string: a maximal
whitespace run starting at position 0 is removed entirely (`^\s+`; a run
starting later never begins at a line start, since the character before
it is non-whitespace, hence not a newline); a run reaching the end of the
string is removed entirely (`\s+$` with `$` at the end of the string); a
mid-string run containing a newline is handled by `\s+$` removing
everything before the run's last newline, after which `^\s+` removes
everything following any kept newline — so the run reduces to a single
newline, except that it vanishes entirely when the character before its
last newline is itself a newline (then `^` fires at the last newline
too); any other run is untouched.  (Behaviour cross-checked against
CPython `re` on runs with every placement of spaces and newlines.) -/
def stripRunsAux : Bool → List (Bool × List Char) → List Char
  | _, [] => []
  | isFirst, (isWs, chunk) :: rest =>
    (if isWs then
       if isFirst || rest.isEmpty then []
       else
         match chunk.reverse.dropWhile (fun c => c ≠ '\n') with
         | [] => chunk
         | _ :: before => if before.head? = some '\n' then [] else ['\n']
     else chunk) ++ stripRunsAux false rest

/-- The MULTILINE line-strip step of `fix_spacing` (see `stripRunsAux`). -/
def stripLineEnds (l : List Char) : List Char :=
  stripRunsAux true (runsAux isPyWs none l)

/-- `fix_spacing`: the four `re.sub` passes, in source order. -/
def fix_spacing (text : String) : String :=
  let t1 : String := ⟨collapseRunsBy (fun c => c = ' ') [' '] false text.data⟩
  let t2 : String := ⟨(rmWsBeforePunctRev false t1.data.reverse).reverse⟩
  let t3 : String := ⟨addSpaceAfterPunct t2.data⟩
  ⟨stripLineEnds t3.data⟩

/-- Sentence-ending punctuation `[.!?]`. -/
def isSentPunct (c : Char) : Bool := c = '.' || c = '!' || c = '?'

/-- Lowercase ASCII letter (`[a-z]`). -/
def isLowerAscii (c : Char) : Bool := 'a' ≤ c && c ≤ 'z'

/-- `re.sub(r'([.,!?;:]){2,}', r'\1', s)`: a run of two or more
punctuation characters collapses to the last one of the run (the group
captures the final repetition).  Scan over the reversed string: keep the
first punctuation character of each reversed run. -/
def collapsePunctRevAux : Bool → List Char → List Char
  | _, [] => []
  | inRun, c :: rest =>
    if isPunctCls c then (if inRun then [] else [c]) ++ collapsePunctRevAux true rest
    else c :: collapsePunctRevAux false rest

/-- States of the `([.!?]\s+)([a-z])` scan: neutral / just after `[.!?]` /
after `[.!?]` plus at least one whitespace character. -/
inductive CapSt where
  | neutral
  | afterPunct
  | afterPunctWs
deriving Repr, DecidableEq

/-- `re.sub(r'([.!?]\s+)([a-z])', <uppercase group 2>, s)`: both groups
are re-emitted verbatim, with the lowercase letter uppercased. -/
def capAfterPunctAux : CapSt → List Char → List Char
  | _, [] => []
  | .afterPunctWs, c :: rest =>
    if isPyWs c then c :: capAfterPunctAux .afterPunctWs rest
    else if isLowerAscii c then c.toUpper :: capAfterPunctAux .neutral rest
    else if isSentPunct c then c :: capAfterPunctAux .afterPunct rest
    else c :: capAfterPunctAux .neutral rest
  | .afterPunct, c :: rest =>
    if isPyWs c then c :: capAfterPunctAux .afterPunctWs rest
    else if isSentPunct c then c :: capAfterPunctAux .afterPunct rest
    else c :: capAfterPunctAux .neutral rest
  | .neutral, c :: rest =>
    if isSentPunct c then c :: capAfterPunctAux .afterPunct rest
    else c :: capAfterPunctAux .neutral rest

/-- `text[0].upper() + text[1:]` (for a single character: `text.upper()`,
which coincides). -/
def capitalizeFirst : List Char → List Char
  | [] => []
  | c :: rest => c.toUpper :: rest

/-- `fix_punctuation`: collapse punctuation runs, capitalize after
sentence ends, capitalize the first character, append a period when the
text does not already end in `.`, `!` or `?`. -/
def fix_punctuation (text : String) : String :=
  let t1 : String := ⟨(collapsePunctRevAux false text.data.reverse).reverse⟩
  let t2 : String := ⟨capAfterPunctAux .neutral t1.data⟩
  let t3 : String := ⟨capitalizeFirst t2.data⟩
  match t3.data.getLast? with
  | none => t3
  | some c => if isSentPunct c then t3 else t3 ++ "."

/-- `text.replace('\r\n', '\n')`. -/
def crlfToLf : List Char → List Char
  | [] => []
  | '\r' :: '\n' :: rest => '\n' :: crlfToLf rest
  | c :: rest => c :: crlfToLf rest

/-- `re.sub(r'\n{3,}', '\n\n', s)`: runs of three or more newlines become
exactly two; shorter runs are untouched.  The counter tracks how many
newlines of the current run have been emitted. -/
def collapseNl3Aux : Nat → List Char → List Char
  | _, [] => []
  | cnt, c :: rest =>
    if c = '\n' then (if cnt < 2 then ['\n'] else []) ++ collapseNl3Aux (cnt + 1) rest
    else c :: collapseNl3Aux 0 rest

/-- `normalize_whitespace`: normalize line endings, collapse 3+ newlines
to two, strip the whole text. -/
def normalize_whitespace (text : String) : String :=
  let t1 := (crlfToLf text.data).map (fun c => if c = '\r' then '\n' else c)
  pyStrip ⟨collapseNl3Aux 0 t1⟩

/-- The five cleaning steps of `clean_transcript`, composed in source
order.  The enclosing `try`/`except` of the source returns
`text.strip()` on any internal exception; every step of the embedding is
a total function, so that handler is unreachable and the floor check in
`clean_transcript` is the only exit producing `text.strip()`.
`if not text or not isinstance(text, str)` reduces to the emptiness test
(the embedding is typed). -/
def cleanedPipeline (text : String) : String :=
  normalize_whitespace (fix_punctuation (fix_spacing
    (remove_filler_words (remove_timestamps text))))

/-- The floor policy of `clean_transcript` around `cleanedPipeline`. -/
def clean_transcript (text : String) : String :=
  if text.isEmpty then ""
  else if (cleanedPipeline text).isEmpty || (pyStrip (cleanedPipeline text)).length < 10 then
    pyStrip text
  else cleanedPipeline text

/-- `re.split(r'(?<=[.!?])\s+', text)`: pieces are separated by maximal
whitespace runs whose immediately preceding character is `.`, `!` or `?`.
A trailing delimiter yields a trailing empty piece, as in Python.
Arguments: previous-character-was-sentence-punctuation flag, currently
inside-a-delimiter flag, accumulated current piece (reversed), input. -/
def splitSentAux : Bool → Bool → List Char → List Char → List (List Char)
  | _, _, curRev, [] => [curRev.reverse]
  | prevPunct, false, curRev, c :: rest =>
    if prevPunct && isPyWs c then curRev.reverse :: splitSentAux false true [] rest
    else splitSentAux (isSentPunct c) false (c :: curRev) rest
  | _, true, curRev, c :: rest =>
    if isPyWs c then splitSentAux false true curRev rest
    else splitSentAux (isSentPunct c) false [c] rest

/-- The sentence list `re.split(r'(?<=[.!?])\s+', text)` of
`segment_transcript`. -/
def sentencesOf (text : String) : List String :=
  (splitSentAux false false [] text.data).map (fun l => ⟨l⟩)

/-- The greedy packing loop of `segment_transcript`: state is the
remaining sentences, `current_segment`, and the emitted `segments`. -/
def packLoop (maxLen : Nat) : List String → String → List String → List String
  | [], cur, segs => if cur = "" then segs else segs ++ [pyStrip cur]
  | s :: rest, cur, segs =>
    if maxLen < cur.length + s.length + 1 then
      if cur = "" then packLoop maxLen rest "" (segs ++ [pyStrip s])
      else packLoop maxLen rest s (segs ++ [pyStrip cur])
    else
      if cur = "" then packLoop maxLen rest s segs
      else packLoop maxLen rest (cur ++ " " ++ s) segs

/-- `segment_transcript(text, max_segment_length)`. -/
def segment_transcript (text : String) (maxLen : Nat) : List String :=
  if text.isEmpty then [] else packLoop maxLen (sentencesOf text) "" []

/-! ### `views.py` — description cleaning in `extract_subtitles` -/

/-- The character class of the URL pattern in `extract_subtitles`:
`(?:[a-zA-Z]|[0-9]|[$-_@.&+]|[!*\\(\\),]|(?:%[0-9a-fA-F][0-9a-fA-F]))`.
`[$-_@.&+]` is a character range from `$` (0x24) to `_` (0x5F) plus
`@ . & +` (all already inside the range); the `%xx` alternative adds
nothing beyond characters already in the range.  -/
def isUrlBodyChar (c : Char) : Bool :=
  isAsciiLetter c || c.isDigit || ('$' ≤ c && c ≤ '_') ||
  c = '@' || c = '.' || c = '&' || c = '+' ||
  c = '!' || c = '*' || c = '\\' || c = '(' || c = ')' || c = ','

/-- The URL pattern `http[s]?://(...)+` (greedy, at least one body
character). -/
def mUrl (l : List Char) : Option (List Char) :=
  (mChar 'h' l >>= mChar 't' >>= mChar 't' >>= mChar 'p' >>= fun l1 =>
    (mChar 's' l1).orElse (fun _ => some l1)) >>= fun l2 =>
  mChar ':' l2 >>= mChar '/' >>= mChar '/' >>= fun l3 =>
    match l3 with
    | c :: rest =>
      if isUrlBodyChar c then some ((c :: rest).dropWhile isUrlBodyChar) else none
    | [] => none

/-- The description clean-up of `extract_subtitles` (views.py lines
194–198): strip URLs, collapse newline runs to a space, collapse
whitespace runs to a space and strip, then truncate to 1000 characters
plus `"..."` when longer than 1000. -/
def cleanDescription (d : String) : String :=
  let d1 := pyReSub "" (fun _ l => mUrl l) d
  let d2 : String := ⟨collapseRunsBy (fun c => c = '\n') [' '] false d1.data⟩
  let d3 := pyStrip ⟨collapseRunsBy isPyWs [' '] false d2.data⟩
  if 1000 < d3.length then pyTake d3 1000 ++ "..." else d3

/-! ### `transcription/config.py` — configured limits (default values) -/

/-- Default minimum video duration in seconds. -/
def MIN_VIDEO_DURATION : Nat := 1

/-- Default maximum video duration in seconds (4 hours). -/
def MAX_VIDEO_DURATION : Nat := 14400

/-- Default ASR timeout in seconds. -/
def ASR_TIMEOUT : Nat := 14400

/-- Default maximum audio file size in MB. -/
def MAX_AUDIO_FILE_SIZE_MB : Nat := 1000

/-- The keys of `VALID_MODEL_SIZES`. -/
def VALID_MODEL_SIZES : List String := ["tiny", "base", "small", "medium", "large"]

/-- `SUPPORTED_LANGUAGES`. -/
def SUPPORTED_LANGUAGES : List String :=
  ["en", "es", "fr", "de", "it", "pt", "nl", "pl", "ru", "ja", "ko", "zh", "ar", "hi"]

/-- `TEMP_AUDIO_DIR` (relative to the project base directory). -/
def TEMP_AUDIO_DIR : String := "temp_audio"

/-- `AUDIO_FORMAT`. -/
def AUDIO_FORMAT : String := "wav"

/-- Default `WHISPER_MODEL_SIZE`. -/
def WHISPER_MODEL_SIZE : String := "base"

/-- Default `WHISPER_DEVICE`. -/
def WHISPER_DEVICE : String := "cpu"

/-! ### Number formatting used in messages -/

/-- `f"{duration/60:.1f}"` for an integral number of seconds: the value
`sec/60` rounded to one decimal, rendered as `"<int>.<tenth>"`.  Python
formats the binary double `duration/60`, which agrees with exact rational
rounding except possibly at representation-boundary ties; the theorems
below only evaluate this on exact multiples of 60 seconds, where the two
coincide (`"k.0"`). -/
def fmt1Minutes (sec : Nat) : String :=
  toString ((10 * sec + 30) / 60 / 10) ++ "." ++ toString ((10 * sec + 30) / 60 % 10)

/-- `f"{q:.1f}"` on a nonnegative rational, by exact rounding (same caveat
as `fmt1Minutes`; only evaluated on exactly representable values).  The
rounded tenths value `⌊10q + 1/2⌋ = ⌊(20 num + den) / (2 den)⌋` is
computed with integer arithmetic (truncating division, which is the floor
on these nonnegative quantities). -/
def fmtQ1 (q : ℚ) : String :=
  let t : Int := (20 * q.num + q.den) / (2 * q.den)
  toString (t / 10) ++ "." ++ toString (t % 10)

/-! ### `transcription/audio_extractor.py` -/

/-- `validate_video_duration(duration)`.  The metadata durations consumed
here are integral seconds, embedded as `Nat` (Python renders such a value
in the first message with `str`, matching `toString`). -/
def validate_video_duration (duration : Nat) : Except TErr Unit :=
  if duration < MIN_VIDEO_DURATION then
    .error (DurationLimitError
      ("Video is too short (" ++ toString duration ++ "s). Minimum duration is " ++
       toString MIN_VIDEO_DURATION ++ "s"))
  else if MAX_VIDEO_DURATION < duration then
    .error (DurationLimitError
      ("Video exceeds maximum duration of " ++ toString (MAX_VIDEO_DURATION / 60) ++
       " minutes. Video duration: " ++ fmt1Minutes duration ++ " minutes"))
  else .ok ()

/-- The body of `check_disk_space`'s `try` block: compare the available
megabytes reported by `os.statvfs` against the requirement and raise
`DiskSpaceError` when insufficient. -/
def check_disk_space_try (availableMB : ℚ) (requiredMB : Nat) : Except TErr Unit :=
  if availableMB < (requiredMB : ℚ) then
    .error (DiskSpaceError
      ("Insufficient disk space. Required: " ++ toString requiredMB ++ "MB, Available: " ++
       fmtQ1 availableMB ++ "MB"))
  else .ok ()

/-- `check_disk_space(required_mb)`.  `availableMB?` is `none` when the
platform has no `os.statvfs` (the `AttributeError` branch logs a warning).
The `except Exception` clause also catches the `DiskSpaceError` raised by
the function's own `try` suite and converts it into a logged warning, so
the function returns normally in every case. -/
def check_disk_space (availableMB? : Option ℚ) (requiredMB : Nat) : Except TErr Unit :=
  match availableMB? with
  | none => .ok ()
  | some a =>
    match check_disk_space_try a requiredMB with
    | .ok _ => .ok ()
    | .error _ => .ok ()

/-- A raised Python exception as the orchestrator can observe it: a member
of the typed hierarchy, the builtin `MemoryError`, an `ImportError`, or
any other exception (carrying `str(e)`). -/
inductive PyExc where
  | typed (e : TErr)
  | builtinMemory (msg : String)
  | importError (msg : String)
  | other (msg : String)
deriving Repr, DecidableEq

/-- Metadata returned by `get_audio_info` (network fetch, no download). -/
structure MetaInfo where
  duration : Nat
  video_id : String
  title : String
deriving Repr, DecidableEq

/-- Environment of one `extract_audio` call: the outcomes of its
interactions with the platform (directory creation, `statvfs`, the
metadata fetch — already classified by `get_audio_info` — the download,
and the produced file). -/
structure ExtractEnv where
  ensureDirOk : Bool
  ensureDirMsg : String
  statvfsMB : Option ℚ
  metadata : Except PyExc MetaInfo
  timestamp : Nat
  download : Except String Unit
  outputExists : Bool
  fileSizeMB : ℚ
deriving Repr

/-- Observable actions of `extract_audio`, in execution order; the
metadata fetch and the download are the network activities. -/
inductive ExtractStep where
  | ensureDir
  | diskCheck
  | metadataFetch
  | download
deriving Repr, DecidableEq

/-- The `except OSError` handler of `extract_audio`. -/
def classifyOSError (msg : String) : TErr :=
  if containsStr (pyLower msg) "permission" then
    FileSystemPermissionError ("Permission denied when accessing file system: " ++ msg)
  else AudioExtractionError ("File system error: " ++ msg)

/-- The `except yt_dlp.utils.DownloadError` handler of the download step
of `extract_audio`. -/
def classifyDownloadError (msg : String) : TErr :=
  if containsStr (pyLower msg) "not available" then
    InvalidURLError "Video is not available or is private"
  else if containsStr (pyLower msg) "network" || containsStr (pyLower msg) "timeout" then
    NetworkError ("Network error during download: " ++ msg)
  else AudioExtractionError ("Download failed: " ++ msg)

/-- The generated output path `TEMP_AUDIO_DIR / f"{video_id}_{timestamp}.wav"`. -/
def audioOutputPath (video_id : String) (timestamp : Nat) : String :=
  TEMP_AUDIO_DIR ++ "/" ++ video_id ++ "_" ++ toString timestamp ++ "." ++ AUDIO_FORMAT

/-- The success dictionary of `extract_audio`. -/
structure ExtractResult where
  audio_path : String
  duration : Nat
  video_id : String
  title : String
  file_size_mb : ℚ
deriving Repr, DecidableEq

/-- `extract_audio(youtube_url)` with the default generated output path,
returning its result (or raised error) together with the trace of
performed actions.  Known typed exceptions are re-raised unchanged by the
outer handler; an `OSError` is classified by `classifyOSError`. -/
def extract_audio (env : ExtractEnv) : Except PyExc ExtractResult × List ExtractStep :=
  if ¬ env.ensureDirOk then
    (.error (.typed (classifyOSError env.ensureDirMsg)), [.ensureDir])
  else
    match check_disk_space env.statvfsMB 200 with
    | .error e => (.error (.typed e), [.ensureDir, .diskCheck])
    | .ok _ =>
      match env.metadata with
      | .error e => (.error e, [.ensureDir, .diskCheck, .metadataFetch])
      | .ok info =>
        match validate_video_duration info.duration with
        | .error e => (.error (.typed e), [.ensureDir, .diskCheck, .metadataFetch])
        | .ok _ =>
          let path := audioOutputPath info.video_id env.timestamp
          match env.download with
          | .error msg =>
            (.error (.typed (classifyDownloadError msg)),
             [.ensureDir, .diskCheck, .metadataFetch, .download])
          | .ok _ =>
            if ¬ env.outputExists then
              (.error (.typed (AudioExtractionError
                 ("Audio file was not created at expected path: " ++ path))),
               [.ensureDir, .diskCheck, .metadataFetch, .download])
            else if (MAX_AUDIO_FILE_SIZE_MB : ℚ) < env.fileSizeMB then
              (.error (.typed (AudioExtractionError
                 ("Audio file too large (" ++ fmtQ1 env.fileSizeMB ++ "MB). Maximum allowed: " ++
                  toString MAX_AUDIO_FILE_SIZE_MB ++ "MB"))),
               [.ensureDir, .diskCheck, .metadataFetch, .download])
            else
              (.ok { audio_path := path, duration := info.duration, video_id := info.video_id,
                     title := info.title, file_size_mb := env.fileSizeMB },
               [.ensureDir, .diskCheck, .metadataFetch, .download])

/-- The result dictionary of `cleanup_audio_file`. -/
structure CleanupResult where
  success : Bool
  path : String
  error : String
deriving Repr, DecidableEq

/-- `cleanup_audio_file(audio_path)` over a filesystem modelled as the
list of existing paths.  A missing file is reported as success; a failing
`unlink` (its `OSError` text in the `Except`) is caught inside and
reported as a failure dictionary, leaving the file in place. -/
def cleanup_audio_file (fs : List String) (audio_path : String)
    (unlink : Except String Unit) : CleanupResult × List String :=
  if audio_path ∈ fs then
    match unlink with
    | .ok _ => ({ success := true, path := audio_path, error := "" },
                fs.filter (fun q => q ≠ audio_path))
    | .error m => ({ success := false, path := audio_path,
                     error := "Failed to delete audio file: " ++ m }, fs)
  else
    ({ success := true, path := audio_path, error := "" }, fs)

/-! ### `transcription/whisper_service.py` -/

/-- The process-wide model cache: the globals `_whisper_model` (a handle,
numbered by construction order) and `_model_size_loaded`, plus a counter
of `WhisperModel` constructor invocations. -/
structure WhisperCache where
  whisper_model : Option Nat
  model_size_loaded : Option String
  ctorCalls : Nat
deriving Repr, DecidableEq

/-- The construction-and-cache tail of `load_whisper_model`: invoke the
`WhisperModel` constructor (yielding a fresh handle) and overwrite both
cache slots.  Construction failures raise `ModelLoadError` /
`OutOfMemoryError` before either global is assigned, so the cache is only
ever mutated on this success path. -/
def loadWhisperFresh (model_size : String) (st : WhisperCache) : Nat × WhisperCache :=
  (st.ctorCalls,
   { whisper_model := some st.ctorCalls, model_size_loaded := some model_size,
     ctorCalls := st.ctorCalls + 1 })

/-- `load_whisper_model(model_size, device, force_reload)` on its success
path: default both arguments (`or` treats the empty string like `None`),
fall back to `'base'` for an invalid size and to `'cpu'` for an invalid
or CUDA device, return the cached handle when the cache is populated for
the same size and `force_reload` is not set, and otherwise construct and
cache a new handle. -/
def load_whisper_model (model_size? device? : Option String) (force_reload : Bool)
    (st : WhisperCache) : Nat × WhisperCache :=
  let size0 := match model_size? with
    | none => WHISPER_MODEL_SIZE
    | some s => if s = "" then WHISPER_MODEL_SIZE else s
  let dev0 := match device? with
    | none => WHISPER_DEVICE
    | some d => if d = "" then WHISPER_DEVICE else d
  let model_size := if VALID_MODEL_SIZES.contains size0 then size0 else "base"
  let dev1 := if dev0 = "cpu" || dev0 = "cuda" then dev0 else "cpu"
  let _device := if dev1 = "cuda" then "cpu" else dev1
  match force_reload, st.whisper_model with
  | false, some m =>
    if st.model_size_loaded = some model_size then (m, st)
    else loadWhisperFresh model_size st
  | _, _ => loadWhisperFresh model_size st

/-- `unload_whisper_model()`: clear both cache slots (safe when nothing is
loaded). -/
def unload_whisper_model (st : WhisperCache) : WhisperCache :=
  { whisper_model := none, model_size_loaded := none, ctorCalls := st.ctorCalls }

/-- The on-disk state of the input audio file as `validate_audio_file`
and `check_audio_corruption` observe it. -/
structure AudioFileInfo where
  path : String
  onDisk : Bool
  readable : Bool
  sizeBytes : Nat
deriving Repr, DecidableEq

/-- `validate_audio_file(audio_path)`: existence, readability and
non-emptiness checks (the extension check only logs a warning). -/
def validate_audio_file (f : AudioFileInfo) : Except TErr Unit :=
  if ¬ f.onDisk then
    .error (AudioFormatError ("Audio file does not exist: " ++ f.path))
  else if ¬ f.readable then
    .error (AudioFormatError ("Audio file is not readable: " ++ f.path))
  else if f.sizeBytes = 0 then
    .error (AudioFormatError ("Audio file is empty: " ++ f.path))
  else .ok ()

/-- `check_audio_corruption(audio_path)`: files under 1000 bytes are
treated as corrupted (a `stat` failure would also yield `false`, but the
file was just validated as existing). -/
def check_audio_corruption (f : AudioFileInfo) : Bool :=
  if f.sizeBytes < 1000 then false else true

/-- One engine segment: its text and, when the engine reports an
`avg_logprob` signal, the value `math.exp(avg_logprob)` (the probability
the source derives from it; `exp` itself is not re-modelled). -/
structure Seg where
  text : String
  expProb? : Option ℚ
deriving Repr, DecidableEq

/-- Outcome of the blocking `model.transcribe` call: segments plus the
detected language, a timeout (the SIGALRM fired), a builtin
`MemoryError`, or another exception. -/
inductive RunOutcome where
  | ok (segments : List Seg) (infoLanguage : String)
  | timeout
  | memErr (msg : String)
  | exc (msg : String)
deriving Repr, DecidableEq

/-- Environment of one `transcribe_audio` call. -/
structure TranscribeEnv where
  file : AudioFileInfo
  modelLoad : Except TErr Unit
  run : RunOutcome
deriving Repr

/-- The result dictionary of `transcribe_audio`.  Failure dictionaries in
the source carry only `success` and `error`; the remaining fields are
read by the orchestrator through `.get` with these defaults.  The
wall-clock `duration` entry is timing information and is not modelled. -/
structure TranscribeDict where
  success : Bool
  text : String
  language : String
  confidence : ℚ
  error : String
deriving Repr, DecidableEq

/-- `min(1.0, max(0.0, x))`. -/
def clamp01 (q : ℚ) : ℚ := min 1 (max 0 q)

/-- The confidence derivation of `transcribe_audio`: `0.0` with no
segments, the fixed default `0.8` when no segment carries a signal, and
otherwise the clamped mean of the per-segment probabilities. -/
def confidenceOf (segs : List Seg) : ℚ :=
  match segs with
  | [] => 0
  | _ =>
    let cs := segs.filterMap (fun s => s.expProb?)
    if cs.isEmpty then 4 / 5
    else clamp01 (cs.sum / cs.length)

/-- The language-option normalization of `transcribe_audio`: an
unsupported language value is discarded in favour of auto-detection
(logged, not fatal).  The resulting value is only passed to the engine
call, whose outcome the environment abstracts. -/
def normalizeLanguage (language? : Option String) : Option String :=
  match language? with
  | some l => if SUPPORTED_LANGUAGES.contains l then some l else none
  | none => none

/-- The `try` suite of `transcribe_audio`: validation, corruption probe,
language check (see `normalizeLanguage`), model load, the transcription
run, and the empty-text check.  Raised errors propagate to the handlers
in `transcribe_audio`. -/
def transcribe_audio_try (env : TranscribeEnv) (language? : Option String)
    (timeout : Nat) : Except PyExc TranscribeDict :=
  match validate_audio_file env.file with
  | .error e => .error (.typed e)
  | .ok _ =>
    if check_audio_corruption env.file = false then
      .error (.typed (AudioFormatError "Audio file appears to be corrupted or invalid"))
    else
      match normalizeLanguage language?, env.modelLoad with
      | _, .error e => .error (.typed e)
      | _, .ok _ =>
        match env.run with
        | .timeout =>
          .error (.typed (TranscriptionTimeoutError
            ("Transcription timed out after " ++ toString timeout ++
             " seconds. Try a shorter video or increase timeout.")))
        | .memErr msg => .error (.builtinMemory msg)
        | .exc msg => .error (.other msg)
        | .ok segs lang =>
          if pyStrip (String.intercalate " " (segs.map (fun s => s.text))) = "" then
            .error (.typed (TranscriptionError
              "Transcription produced empty text. Audio may be silent or unintelligible." none))
          else
            .ok { success := true,
                  text := pyStrip (String.intercalate " " (segs.map (fun s => s.text))),
                  language := lang, confidence := confidenceOf segs, error := "" }

/-- The `except` clauses of `transcribe_audio`: every raised exception is
converted into a failure dictionary (`AudioFormatError` and
`TranscriptionTimeoutError` pass `str(e)` through, builtin `MemoryError`
gets a canned message, and the final `except Exception` — which also
catches `ModelLoadError`, `OutOfMemoryError` and `TranscriptionError` —
prefixes `"Transcription failed: "`). -/
def transcribeExceptDict (e : PyExc) : TranscribeDict :=
  match e with
  | .typed te =>
    if te.kind = .audioFormat then
      { success := false, text := "", language := "", confidence := 0, error := te.data.message }
    else if te.kind = .transcriptionTimeout then
      { success := false, text := "", language := "", confidence := 0, error := te.data.message }
    else
      { success := false, text := "", language := "", confidence := 0,
        error := "Transcription failed: " ++ te.data.message }
  | .builtinMemory _ =>
    { success := false, text := "", language := "", confidence := 0,
      error := "System out of memory during transcription. Try a shorter video or smaller model." }
  | .importError msg =>
    { success := false, text := "", language := "", confidence := 0,
      error := "Transcription failed: " ++ msg }
  | .other msg =>
    { success := false, text := "", language := "", confidence := 0,
      error := "Transcription failed: " ++ msg }

/-- `transcribe_audio(audio_path, language, model_size, timeout)`: the
`try` suite followed by the handlers.  The `Except` result type records
what the caller can observe: an `.error` would be a raised exception
escaping the function. -/
def transcribe_audio (env : TranscribeEnv) (language? : Option String)
    (timeout? : Option Nat) : Except PyExc TranscribeDict :=
  let timeout := match timeout? with
    | none => ASR_TIMEOUT
    | some t => if t = 0 then ASR_TIMEOUT else t
  match transcribe_audio_try env language? timeout with
  | .ok d => .ok d
  | .error e => .ok (transcribeExceptDict e)

/-! ### `views.py` — the orchestrator `yt_transcript` -/

/-- The result dictionary shape shared by `extract_subtitles` and
`yt_transcript` (the `video_id` / `video_title` / timing metadata entries
are not modelled). -/
structure SubtitleResult where
  success : Bool
  text : String
  method : String
  language : String
  confidence : ℚ
  error : String
deriving Repr, DecidableEq

/-- The description branch of `extract_subtitles` (views.py 192–206),
entered when no sufficient subtitle text was found and the raw
description has more than 50 characters after stripping. -/
def descriptionResult (description : String) : SubtitleResult :=
  { success := true, text := cleanDescription description, method := "description",
    language := "", confidence := 0, error := "" }

/-- Environment of the ASR block of one `yt_transcript` call: the
outcomes of `extract_audio` (the created file's `audio_path`, or a
raise), of `transcribe_audio`, and of the `unlink` performed by the
cleanup in the `finally` block. -/
structure OrchEnv where
  extract : Except PyExc String
  transcribe : Except PyExc TranscribeDict
  unlink : Except String Unit
deriving Repr

/-- The configuration flags `yt_transcript` reads. -/
structure OrchCfg where
  enable_asr : Bool
  auto_cleanup : Bool
deriving Repr, DecidableEq

/-- views.py 302–315: a failure dictionary from `transcribe_audio` is
turned back into a typed raise by keyword inspection of its error string
(the dictionaries built by `transcribe_audio` always carry an `error`
key, so the `.get` default is not modelled). -/
def classifyAsrFailure (error_msg : String) : TErr :=
  if containsStr (pyLower error_msg) "timeout" then TranscriptionTimeoutError error_msg
  else if containsStr (pyLower error_msg) "memory" then OutOfMemoryError error_msg
  else if containsStr (pyLower error_msg) "audio" && containsStr (pyLower error_msg) "format" then
    AudioFormatError error_msg
  else if containsStr (pyLower error_msg) "model" then ModelLoadError error_msg
  else TranscriptionError error_msg none

/-- The `try` suite of the ASR block of `yt_transcript` (views.py
273–347): extract audio, transcribe, raise a classified error on a
failure dictionary, clean the transcript (the cleaner is total, so its
`except TranscriptCleaningError` fallback is unreachable), and build the
`method = "asr"` success dictionary. -/
def asrTryOutcome (env : OrchEnv) : Except PyExc SubtitleResult :=
  match env.extract with
  | .error e => .error e
  | .ok _path =>
    match env.transcribe with
    | .error e => .error e
    | .ok d =>
      if d.success then
        .ok { success := true, text := clean_transcript d.text, method := "asr",
              language := d.language, confidence := d.confidence, error := "" }
      else .error (.typed (classifyAsrFailure d.error))

/-- The `audio_path` local of `yt_transcript`: set exactly when
`extract_audio` returned. -/
def asrAudioPath (env : OrchEnv) : Option String :=
  match env.extract with
  | .ok p => some p
  | .error _ => none

/-- The `except` clauses of the ASR block (views.py 349–388): any typed
error, `ImportError` or unexpected exception falls back to the previously
fetched description result when one exists; otherwise a typed error is
re-raised unchanged, an `ImportError` becomes a `TranscriptionError` with
a fixed message, and an unexpected exception becomes a
`TranscriptionError` wrapping `str(e)`. -/
def asrHandledOutcome (subR : SubtitleResult) (o : Except PyExc SubtitleResult) :
    Except PyExc SubtitleResult :=
  match o with
  | .ok r => .ok r
  | .error e =>
    if subR.success && subR.method = "description" then .ok subR
    else
      match e with
      | .typed te => .error (.typed te)
      | .importError _ =>
        .error (.typed (TranscriptionError
          "ASR module not available. Please install required dependencies." none))
      | .builtinMemory msg =>
        .error (.typed (TranscriptionError ("ASR failed with unexpected error: " ++ msg) none))
      | .other msg =>
        .error (.typed (TranscriptionError ("ASR failed with unexpected error: " ++ msg) none))

/-- The ASR block of `yt_transcript` including its `finally` clause,
threading the filesystem (the list of existing paths): the file created
by `extract_audio` is added, and the `finally` block deletes it via
`cleanup_audio_file` whenever `audio_path` was set and auto-cleanup is
configured (the surrounding `try`/`except` absorbs cleanup errors, and
`cleanup_audio_file` itself returns a dictionary rather than raising). -/
def yt_transcript_asr (subR : SubtitleResult) (env : OrchEnv) (autoCleanup : Bool)
    (fs : List String) : Except PyExc SubtitleResult × List String :=
  let fs1 := match env.extract with
    | .ok p => p :: fs
    | .error _ => fs
  let outcome := asrHandledOutcome subR (asrTryOutcome env)
  let fs2 := match asrAudioPath env with
    | some p => if autoCleanup then (cleanup_audio_file fs1 p env.unlink).2 else fs1
    | none => fs1
  (outcome, fs2)

/-- `yt_transcript(url)` given the already-computed `extract_subtitles`
result `subR`: return `subR` when it is a sufficient subtitles result
(more than 100 stripped characters), otherwise run the ASR block when ASR
is enabled, otherwise fall back to a description result or to the
terminal `method = "none"` failure dictionary. -/
def yt_transcript (subR : SubtitleResult) (env : OrchEnv) (cfg : OrchCfg)
    (fs : List String) : Except PyExc SubtitleResult × List String :=
  if subR.success && subR.method = "subtitles" && decide (100 < (pyStrip subR.text).length) then
    (.ok subR, fs)
  else if cfg.enable_asr then
    yt_transcript_asr subR env cfg.auto_cleanup fs
  else if subR.success && subR.method = "description" then
    (.ok subR, fs)
  else
    (.ok { success := false,
           text := "No transcript or description available for this video. The video might not have captions enabled.",
           method := "none", language := "", confidence := 0,
           error := "No subtitles available and ASR is disabled" }, fs)

/-- Whether a string ends in sentence punctuation (`.`, `!` or `?`). -/
def endsSentPunct (s : String) : Bool :=
  (s.data.getLast?.map isSentPunct).getD false

/-! ## Helper lemmas -/

theorem pyStripList_length_le (l : List Char) : (pyStripList l).length ≤ l.length := by
  unfold pyStripList
  rw [List.length_reverse]
  refine le_trans (List.Sublist.length_le (List.dropWhile_sublist _)) ?_
  rw [List.length_reverse]
  exact List.Sublist.length_le (List.dropWhile_sublist _)

theorem pyStrip_length_le (s : String) : (pyStrip s).length ≤ s.length :=
  pyStripList_length_le s.data

theorem string_append_ne_empty_of_left (a b : String) (ha : 0 < a.length) : a ++ b ≠ "" := by
  intro h
  have h2 := congrArg String.length h
  rw [String.length_append] at h2
  have : ("" : String).length = 0 := rfl
  omega

instance exceptDecidableEq {α β : Type} [DecidableEq α] [DecidableEq β] :
    DecidableEq (Except α β) := fun a b =>
  match a, b with
  | .ok x, .ok y =>
    decidable_of_iff (x = y) ⟨by rintro rfl; rfl, fun h => by injection h⟩
  | .error x, .error y =>
    decidable_of_iff (x = y) ⟨by rintro rfl; rfl, fun h => by injection h⟩
  | .ok _, .error _ => isFalse (fun h => by injection h)
  | .error _, .ok _ => isFalse (fun h => by injection h)

end ArticleI

namespace ArticleI

/-! ## Claim theorems -/

/-- C6: `clean_transcript` is total on strings (its internal `except`
handler is unreachable in the embedding since every step is a total
function), `clean_transcript("") = ""`, and for any string `x` the result
either has trimmed length at least 10 or is exactly `trim(x)`: cleaning
never shrinks content below the minimum-viability floor. -/
theorem C6_clean_transcript_floor (x : String) :
    clean_transcript "" = "" ∧
    (10 ≤ (pyStrip (clean_transcript x)).length ∨ clean_transcript x = pyStrip x) := by
  refine ⟨rfl, ?_⟩
  unfold clean_transcript
  split
  · next hx =>
    right
    have hx' : x = "" := (String.isEmpty_iff x).mp hx
    subst hx'
    rfl
  · split
    · exact Or.inr rfl
    · next h =>
      left
      rw [Bool.or_eq_true, decide_eq_true_iff] at h
      push_neg at h
      omega

/-- C6 witness: the floor invariant applied to a concrete transcript. -/
theorem C6_clean_transcript_floor_witness :
    clean_transcript "" = "" ∧
    (10 ≤ (pyStrip (clean_transcript "um, hello there everyone")).length ∨
      clean_transcript "um, hello there everyone" = pyStrip "um, hello there everyone") :=
  C6_clean_transcript_floor "um, hello there everyone"

/-- C3 counterexample: the base `TranscriptionError` constructor defaults
`user_message` to the technical message, so an error constructed with a
technical message containing a filesystem path has that same path in its
user message — the by-construction no-leak invariant fails for this
constructor of the hierarchy.  (The orchestrator builds exactly such
errors: views.py line 315 re-raises a transcription failure dictionary's
error string — for instance `"Audio file does not exist: /tmp/..."` — as
`TranscriptionError(error_msg)`.) -/
theorem C3_counterexample :
    leaksInternal
      (TranscriptionError "Audio file does not exist: /tmp/audio_1.wav" none).data.message = true ∧
    leaksInternal
      (TranscriptionError "Audio file does not exist: /tmp/audio_1.wav" none).data.user_message
      = true := by
  exact ⟨by decide, by decide⟩

/-- C3 amended: the no-leak invariant holds for the nine leaf
constructors that set a fixed canned user message (`InvalidURLError`,
`NetworkError`, `DiskSpaceError`, `FileSystemPermissionError`,
`ModelLoadError`, `TranscriptionTimeoutError`, `AudioFormatError`,
`OutOfMemoryError`, `TranscriptCleaningError`): whatever the technical
message, their user message contains no filesystem path separator and no
digit.  It does not hold by construction for every constructor: the base
`TranscriptionError` (and the pass-through `AudioExtractionError` /
`WhisperError`) default the user message to the technical message, and
`DurationLimitError` passes the technical message through whenever it
mentions "minute". -/
theorem C3_no_leak_canned_constructors (m : String) :
    leaksInternal (InvalidURLError m).data.user_message = false ∧
    leaksInternal (NetworkError m).data.user_message = false ∧
    leaksInternal (DiskSpaceError m).data.user_message = false ∧
    leaksInternal (FileSystemPermissionError m).data.user_message = false ∧
    leaksInternal (ModelLoadError m).data.user_message = false ∧
    leaksInternal (TranscriptionTimeoutError m).data.user_message = false ∧
    leaksInternal (AudioFormatError m).data.user_message = false ∧
    leaksInternal (OutOfMemoryError m).data.user_message = false ∧
    leaksInternal (TranscriptCleaningError m).data.user_message = false :=
  ⟨rfl, rfl, rfl, rfl, rfl, rfl, rfl, rfl, rfl⟩

/-- C8: the model cache.  Starting from an empty cache slot, two
sequential `load("base", "cpu")` calls invoke the engine constructor
exactly once — the second call returns the cached handle and leaves the
state unchanged — and a following `load("small", "cpu")` invokes the
constructor a second time, replacing the cached handle and key with the
new model (swap semantics). -/
theorem C8_model_cache (st : WhisperCache) (h : st.whisper_model = none) :
    (load_whisper_model (some "base") (some "cpu") false st).2.ctorCalls = st.ctorCalls + 1 ∧
    (let r1 := load_whisper_model (some "base") (some "cpu") false st
     let r2 := load_whisper_model (some "base") (some "cpu") false r1.2
     let r3 := load_whisper_model (some "small") (some "cpu") false r2.2
     r2.1 = r1.1 ∧ r2.2 = r1.2 ∧ r2.2.ctorCalls = st.ctorCalls + 1 ∧
     r3.2.ctorCalls = st.ctorCalls + 2 ∧ r3.2.whisper_model = some r3.1 ∧
     r3.2.model_size_loaded = some "small" ∧ r3.1 ≠ r2.1) := by
  obtain ⟨mdl, sz, n⟩ := st
  cases h
  refine ⟨rfl, rfl, rfl, rfl, rfl, rfl, rfl, ?_⟩
  simp [load_whisper_model, loadWhisperFresh, VALID_MODEL_SIZES]

/-- C8 witness: the cache scenario run from the initial empty state. -/
theorem C8_model_cache_witness :
    (load_whisper_model (some "base") (some "cpu") false ⟨none, none, 0⟩).2.ctorCalls = 0 + 1 ∧
    (let r1 := load_whisper_model (some "base") (some "cpu") false ⟨none, none, 0⟩
     let r2 := load_whisper_model (some "base") (some "cpu") false r1.2
     let r3 := load_whisper_model (some "small") (some "cpu") false r2.2
     r2.1 = r1.1 ∧ r2.2 = r1.2 ∧ r2.2.ctorCalls = 0 + 1 ∧
     r3.2.ctorCalls = 0 + 2 ∧ r3.2.whisper_model = some r3.1 ∧
     r3.2.model_size_loaded = some "small" ∧ r3.1 ≠ r2.1) :=
  C8_model_cache ⟨none, none, 0⟩ rfl

/-- C2 (code bug): with 50 MB available and 200 MB required, the `try`
suite of `check_disk_space` does raise `DiskSpaceError`, but the
function's own `except Exception` clause catches that very error and
turns it into a logged warning, so `check_disk_space` returns normally —
and `extract_audio` then proceeds to the network metadata fetch and the
download and completes successfully.  This contradicts the claim (and the
docstrings of both functions, which list `DiskSpaceError` as raised on
insufficient space before any network activity). -/
theorem C2_disk_space_gate_not_enforced :
    check_disk_space_try 50 200 =
      .error (DiskSpaceError
        "Insufficient disk space. Required: 200MB, Available: 50.0MB") ∧
    check_disk_space (some 50) 200 = .ok () ∧
    (ExtractStep.metadataFetch ∈
      (extract_audio ⟨true, "", some 50, .ok ⟨300, "abc123", "t"⟩, 111, .ok (), true, 12⟩).2) ∧
    (ExtractStep.download ∈
      (extract_audio ⟨true, "", some 50, .ok ⟨300, "abc123", "t"⟩, 111, .ok (), true, 12⟩).2) ∧
    (extract_audio ⟨true, "", some 50, .ok ⟨300, "abc123", "t"⟩, 111, .ok (), true, 12⟩).1 =
      .ok ⟨audioOutputPath "abc123" 111, 300, "abc123", "t", 12⟩ := by
  refine ⟨?_, ?_, ?_, ?_, ?_⟩ <;> decide

theorem string_append3_ne_empty (a b c : String) (ha : 0 < a.length) : a ++ b ++ c ≠ "" := by
  apply string_append_ne_empty_of_left
  rw [String.length_append]
  omega

theorem validate_audio_file_error (f : AudioFileInfo) (te : TErr)
    (h : validate_audio_file f = .error te) :
    te.kind = ErrKind.audioFormat ∧ te.data.message ≠ "" := by
  unfold validate_audio_file at h
  repeat' split at h
  all_goals try exact Except.noConfusion h
  all_goals injection h with h'
  all_goals subst h'
  all_goals exact ⟨rfl, string_append_ne_empty_of_left _ _ (by decide)⟩

theorem transcribe_try_ok (env : TranscribeEnv) (language? : Option String) (timeout : Nat)
    (d : TranscribeDict) (h : transcribe_audio_try env language? timeout = .ok d) :
    d.success = true ∧ d.text ≠ "" := by
  unfold transcribe_audio_try at h
  repeat' split at h
  all_goals try exact Except.noConfusion h
  injection h with h'
  subst h'
  exact ⟨rfl, by assumption⟩

theorem transcribe_try_error_handled (env : TranscribeEnv) (language? : Option String)
    (timeout : Nat) (e : PyExc)
    (hml : ∀ te, env.modelLoad = Except.error te →
      te.kind = ErrKind.modelLoad ∨ te.kind = ErrKind.outOfMemory)
    (h : transcribe_audio_try env language? timeout = .error e) :
    (transcribeExceptDict e).success = false ∧ (transcribeExceptDict e).error ≠ "" := by
  unfold transcribe_audio_try at h
  repeat' split at h
  all_goals try exact Except.noConfusion h
  all_goals injection h with h'
  all_goals subst h'
  · -- a `validate_audio_file` error re-raised
    obtain ⟨hk, hm⟩ := validate_audio_file_error _ _ (by assumption)
    simp [transcribeExceptDict, hk]
    exact hm
  · -- the corruption probe's `AudioFormatError`
    exact ⟨rfl, by decide⟩
  · -- a model-load failure (`ModelLoadError` / `OutOfMemoryError` by `hml`)
    rcases hml _ (by assumption) with hk | hk <;> simp [transcribeExceptDict, hk] <;>
      exact string_append_ne_empty_of_left _ _ (by decide)
  · -- timeout
    refine ⟨rfl, ?_⟩
    show ("Transcription timed out after " ++ toString timeout ++
      " seconds. Try a shorter video or increase timeout.") ≠ ""
    exact string_append3_ne_empty _ _ _ (by decide)
  · -- builtin `MemoryError`
    refine ⟨rfl, ?_⟩
    show ("System out of memory during transcription. Try a shorter video or smaller model." :
      String) ≠ ""
    decide
  · -- an unexpected exception
    refine ⟨rfl, ?_⟩
    show ("Transcription failed: " ++ _) ≠ ""
    exact string_append_ne_empty_of_left _ _ (by decide)
  · -- empty transcription text
    exact ⟨rfl, by decide⟩

/-- C4 amended: `transcribe_audio` never raises — every typed error its
body produces (including `ModelLoadError`, `OutOfMemoryError` and the
generic `TranscriptionError`) is caught by its own `except` clauses — and
it always returns a dictionary: on success with `success = True` and
nonempty text, on failure with `success = False` plus a nonempty error
string.  The claimed "return XOR typed raise" normalization happens one
level up, in the orchestrator, which inspects the failure dictionary's
error string and raises the corresponding typed error (views.py
302–315).  The hypothesis states the only property the body relies on:
`load_whisper_model` failures are `ModelLoadError` or `OutOfMemoryError`,
which is what that function raises. -/
theorem C4_transcribe_stage_boundary (env : TranscribeEnv) (language? : Option String)
    (timeout? : Option Nat)
    (hml : ∀ te, env.modelLoad = Except.error te →
      te.kind = ErrKind.modelLoad ∨ te.kind = ErrKind.outOfMemory) :
    ∃ d, transcribe_audio env language? timeout? = .ok d ∧
      (d.success = true → d.text ≠ "") ∧
      (d.success = false → d.error ≠ "") := by
  unfold transcribe_audio
  dsimp only
  split
  · next d h =>
    obtain ⟨h1, h2⟩ := transcribe_try_ok env language? _ d h
    exact ⟨d, rfl, fun _ => h2, fun hf => absurd h1 (by rw [hf]; decide)⟩
  · next e h =>
    obtain ⟨h1, h2⟩ := transcribe_try_error_handled env language? _ e hml h
    exact ⟨transcribeExceptDict e, rfl, fun ht => absurd h1 (by rw [ht]; decide), fun _ => h2⟩

/-- C4 witness: the stage boundary property at a concrete successful
environment. -/
theorem C4_transcribe_stage_boundary_witness :
    ∃ d, transcribe_audio ⟨⟨"/tmp/audio_1.wav", true, true, 50000⟩, .ok (),
        .ok [⟨"hello there", none⟩] "en"⟩ none none = .ok d ∧
      (d.success = true → d.text ≠ "") ∧
      (d.success = false → d.error ≠ "") :=
  C4_transcribe_stage_boundary _ none none (fun _ h => Except.noConfusion h)

/-- C4 counterexample: for a missing audio file the claim demands a raised
typed `SpeechEngineError` (`AudioFormatInvalid`); instead
`transcribe_audio` catches its own `AudioFormatError` and returns a
result dictionary carrying the failure flag plus an error string — the
very shape the claim says is never returned. -/
theorem C4_counterexample :
    transcribe_audio ⟨⟨"/tmp/audio_1.wav", false, true, 0⟩, .ok (), .ok [] ""⟩ none none =
      .ok { success := false, text := "", language := "", confidence := 0,
            error := "Audio file does not exist: /tmp/audio_1.wav" } := by
  rfl

theorem containsStr_of_append_mid (a pat b : String) :
    containsStr (a ++ pat ++ b) pat = true := by
  unfold containsStr
  rw [decide_eq_true_iff]
  exact ⟨a.data, b.data, by simp [String.data_append]⟩

theorem containsStr_append_end (a pat : String) : containsStr (a ++ pat) pat = true := by
  unfold containsStr
  rw [decide_eq_true_iff]
  exact ⟨a.data, [], by simp [String.data_append]⟩

theorem containsStr_append_left (a b pat : String) (h : containsStr a pat = true) :
    containsStr (a ++ b) pat = true := by
  unfold containsStr at h ⊢
  rw [decide_eq_true_iff] at h ⊢
  obtain ⟨u, v, huv⟩ := h
  exact ⟨u, v ++ b.data, by simp [String.data_append, ← huv, List.append_assoc]⟩

theorem containsStr_append_right (a b pat : String) (h : containsStr b pat = true) :
    containsStr (a ++ b) pat = true := by
  unfold containsStr at h ⊢
  rw [decide_eq_true_iff] at h ⊢
  obtain ⟨u, v, huv⟩ := h
  exact ⟨a.data ++ u, v, by simp [String.data_append, ← huv, List.append_assoc]⟩

theorem pyLower_append (a b : String) : pyLower (a ++ b) = pyLower a ++ pyLower b := by
  obtain ⟨la⟩ := a
  obtain ⟨lb⟩ := b
  show String.mk _ = String.mk _
  simp [pyLower]

theorem fmt1Minutes_mul60 (k : Nat) : fmt1Minutes (60 * k) = toString k ++ ".0" := by
  unfold fmt1Minutes
  have h2 : (10 * (60 * k) + 30) / 60 / 10 = k := by omega
  have h3 : (10 * (60 * k) + 30) / 60 % 10 = 0 := by omega
  rw [h2, h3, String.append_assoc]
  rfl

/-- C7 counterexample: for a below-minimum duration (0 seconds),
`validate_video_duration` does raise `DurationLimitError`, but its
technical message — "Video is too short (0s). Minimum duration is 1s" —
does not contain the word "minute", so the constructor falls back to the
canned above-maximum user message, which contains no digit at all: the
user-facing message embeds neither the actual nor the limit value (and
talks about the wrong bound). -/
theorem C7_counterexample :
    validate_video_duration 0 =
      .error (DurationLimitError "Video is too short (0s). Minimum duration is 1s") ∧
    (DurationLimitError "Video is too short (0s). Minimum duration is 1s").data.user_message =
      "Video exceeds maximum duration limit. Please try a shorter video." ∧
    ("Video exceeds maximum duration limit. Please try a shorter video." : String).data.all
      (fun c => ¬ c.isDigit) = true := by
  refine ⟨?_, ?_, ?_⟩ <;> decide

/-- C7 amended: for durations outside the configured bounds (defaults 1
second and 4 hours), validation raises `DurationLimitError`, and both
technical messages embed the concrete actual/limit values.  Only in the
above-maximum case does the user-facing message pass those values through
(the technical message mentions "minutes"); in the below-minimum case the
user message is the canned generic text without any values.  In-range
durations validate successfully.  (Durations are integral seconds; the
above-maximum statement is proved for whole minutes, where Python's
one-decimal float formatting is exact.) -/
theorem C7_duration_bounds (d : Nat) :
    (d < MIN_VIDEO_DURATION →
      validate_video_duration d =
        .error (DurationLimitError
          ("Video is too short (" ++ toString d ++ "s). Minimum duration is 1s")) ∧
      containsStr ("Video is too short (" ++ toString d ++ "s). Minimum duration is 1s")
        (toString d) = true ∧
      containsStr ("Video is too short (" ++ toString d ++ "s). Minimum duration is 1s")
        (toString MIN_VIDEO_DURATION ++ "s") = true ∧
      (DurationLimitError
        ("Video is too short (" ++ toString d ++ "s). Minimum duration is 1s")).data.user_message
        = "Video exceeds maximum duration limit. Please try a shorter video.") ∧
    (MAX_VIDEO_DURATION < d → 60 ∣ d →
      ∃ m, validate_video_duration d = .error (DurationLimitError m) ∧
        (DurationLimitError m).data.user_message = m ∧
        containsStr m "240" = true ∧
        containsStr m (fmt1Minutes d) = true ∧
        fmt1Minutes d = toString (d / 60) ++ ".0") ∧
    (MIN_VIDEO_DURATION ≤ d → d ≤ MAX_VIDEO_DURATION →
      validate_video_duration d = .ok ()) := by
  refine ⟨?_, ?_, ?_⟩
  · intro h
    have hd : d = 0 := by
      have : MIN_VIDEO_DURATION = 1 := rfl
      omega
    subst hd
    exact ⟨by decide, by decide, by decide, by decide⟩
  · intro h1 h2
    obtain ⟨k, rfl⟩ := h2
    have hmax : MAX_VIDEO_DURATION = 14400 := rfl
    have hmin : MIN_VIDEO_DURATION = 1 := rfl
    have hcond : containsStr (pyLower ("Video exceeds maximum duration of " ++
        toString (MAX_VIDEO_DURATION / 60) ++ " minutes. Video duration: " ++
        fmt1Minutes (60 * k) ++ " minutes")) "minute" = true := by
      rw [pyLower_append, pyLower_append, pyLower_append, pyLower_append]
      apply containsStr_append_left
      apply containsStr_append_left
      apply containsStr_append_right
      decide
    refine ⟨"Video exceeds maximum duration of " ++ toString (MAX_VIDEO_DURATION / 60) ++
      " minutes. Video duration: " ++ fmt1Minutes (60 * k) ++ " minutes",
      ?_, ?_, ?_, ?_, ?_⟩
    · unfold validate_video_duration
      rw [if_neg (by omega), if_pos (by omega)]
    · -- "minute" occurs in the fixed part of the message, so the
      -- user message is the technical message itself
      simp [DurationLimitError, mkErrData, hcond]
    · apply containsStr_append_left
      apply containsStr_append_left
      apply containsStr_append_left
      exact containsStr_append_end "Video exceeds maximum duration of " "240"
    · exact containsStr_append_left _ _ _
        (containsStr_append_end
          ("Video exceeds maximum duration of " ++ toString (MAX_VIDEO_DURATION / 60) ++
           " minutes. Video duration: ") (fmt1Minutes (60 * k)))
    · have hk : 60 * k / 60 = k := by omega
      rw [hk]
      exact fmt1Minutes_mul60 k
  · intro h1 h2
    unfold validate_video_duration
    rw [if_neg (by omega), if_neg (by omega)]

/-- C7 witness: the duration bounds at 0 s (below minimum), 18000 s
(above maximum) and 300 s (accepted). -/
theorem C7_duration_bounds_witness :
    (validate_video_duration 0 =
      .error (DurationLimitError
        ("Video is too short (" ++ toString 0 ++ "s). Minimum duration is 1s")) ∧
      containsStr ("Video is too short (" ++ toString 0 ++ "s). Minimum duration is 1s")
        (toString 0) = true ∧
      containsStr ("Video is too short (" ++ toString 0 ++ "s). Minimum duration is 1s")
        (toString MIN_VIDEO_DURATION ++ "s") = true ∧
      (DurationLimitError
        ("Video is too short (" ++ toString 0 ++ "s). Minimum duration is 1s")).data.user_message
        = "Video exceeds maximum duration limit. Please try a shorter video.") ∧
    (∃ m, validate_video_duration 18000 = .error (DurationLimitError m) ∧
      (DurationLimitError m).data.user_message = m ∧
      containsStr m "240" = true ∧
      containsStr m (fmt1Minutes 18000) = true ∧
      fmt1Minutes 18000 = toString (18000 / 60) ++ ".0") ∧
    validate_video_duration 300 = .ok () :=
  ⟨(C7_duration_bounds 0).1 (by decide),
   (C7_duration_bounds 18000).2.1 (by decide) ⟨300, by norm_num⟩,
   (C7_duration_bounds 300).2.2 (by decide) (by decide)⟩

/-- C5: the fallback rule of the orchestrator.  With ASR enabled, if the
ASR block raises — any typed error from extraction, the typed error the
orchestrator itself raises for a transcription failure dictionary (e.g.
`ModelLoadError`), or an unrecognized exception — and the previously
fetched subtitle result is a retained description fallback, then
`yt_transcript` returns that description result as a degraded success;
when no fallback candidate exists (and captions were insufficient), a
typed error raised by the ASR block is re-raised to the caller
unchanged. -/
theorem C5_fallback_rule (subR : SubtitleResult) (env : OrchEnv) (cfg : OrchCfg)
    (fs : List String) (hasr : cfg.enable_asr = true) :
    (subR.success = true → subR.method = "description" →
      (∃ e, asrTryOutcome env = .error e) →
      (yt_transcript subR env cfg fs).1 = .ok subR) ∧
    (¬(subR.success = true ∧ subR.method = "description") →
      (subR.success && decide (subR.method = "subtitles") &&
        decide (100 < (pyStrip subR.text).length)) = false →
      ∀ te, asrTryOutcome env = .error (.typed te) →
      (yt_transcript subR env cfg fs).1 = .error (.typed te)) := by
  constructor
  · rintro hs hd ⟨e, he⟩
    unfold yt_transcript
    rw [if_neg (by simp [hd]), if_pos hasr]
    rw [show (yt_transcript_asr subR env cfg.auto_cleanup fs).1 =
          asrHandledOutcome subR (asrTryOutcome env) from rfl, he]
    unfold asrHandledOutcome
    dsimp only
    rw [if_pos (by simp [hs, hd])]
  · intro hnd hsub te hte
    unfold yt_transcript
    rw [if_neg (by simp [hsub]), if_pos hasr]
    rw [show (yt_transcript_asr subR env cfg.auto_cleanup fs).1 =
          asrHandledOutcome subR (asrTryOutcome env) from rfl, hte]
    unfold asrHandledOutcome
    dsimp only
    rw [if_neg (by
      simp only [Bool.and_eq_true, decide_eq_true_iff]
      exact fun ⟨h1, h2⟩ => hnd ⟨h1, h2⟩)]

/-- C5 witness: the fallback rule at a concrete run where the model fails
to load (the failure dictionary's error mentions "model", so the
orchestrator raises `ModelLoadError`) and a description fallback exists,
and at a concrete run with a typed `NetworkError` from extraction and no
fallback candidate. -/
theorem C5_fallback_rule_witness :
    (yt_transcript ⟨true, "a description of the video content", "description", "", 0, ""⟩
      ⟨.ok "/tmp/audio_1.wav",
       .ok ⟨false, "", "", 0, "Failed to load faster-whisper model: boom"⟩, .ok ()⟩
      ⟨true, true⟩ []).1 =
      .ok ⟨true, "a description of the video content", "description", "", 0, ""⟩ ∧
    (yt_transcript ⟨false, "", "none", "", 0, "No subtitles or description available"⟩
      ⟨.error (.typed (NetworkError "Network error while fetching video info: boom")),
       .ok ⟨true, "x", "en", 0, ""⟩, .ok ()⟩
      ⟨true, true⟩ []).1 =
      .error (.typed (NetworkError "Network error while fetching video info: boom")) :=
  ⟨(C5_fallback_rule _ _ _ _ rfl).1 rfl rfl ⟨_, rfl⟩,
   (C5_fallback_rule _ _ _ _ rfl).2 (by simp) (by decide) _ rfl⟩

/-- C1: the cleanup guarantee of the ASR path.  With ASR enabled,
auto-cleanup enabled, captions insufficient, and `extract_audio`
returning an audio path, the created audio file no longer exists on disk
after `yt_transcript` returns — whether transcription succeeds, the
orchestrator raises a typed error from a failure dictionary, or the block
raises an unexpected error (the conclusion holds for every transcription
outcome in the environment).  Moreover the outcome returned to the caller
does not depend on whether the cleanup's `unlink` succeeds: a cleanup
failure never fails an otherwise-successful acquisition. -/
theorem C1_asr_cleanup (subR : SubtitleResult) (env : OrchEnv) (cfg : OrchCfg)
    (fs : List String) (p : String)
    (hx : env.extract = .ok p)
    (hac : cfg.auto_cleanup = true)
    (hasr : cfg.enable_asr = true)
    (hsub : (subR.success && decide (subR.method = "subtitles") &&
             decide (100 < (pyStrip subR.text).length)) = false)
    (hunlink : env.unlink = .ok ()) :
    p ∉ (yt_transcript subR env cfg fs).2 ∧
    ∀ u, (yt_transcript subR { env with unlink := u } cfg fs).1 =
      (yt_transcript subR env cfg fs).1 := by
  obtain ⟨ex, tr, ul⟩ := env
  dsimp only at hx hunlink
  subst hx
  subst hunlink
  constructor
  · unfold yt_transcript
    rw [if_neg (by simp [hsub]), if_pos hasr]
    unfold yt_transcript_asr asrAudioPath
    dsimp only
    rw [hac]
    simp [cleanup_audio_file, List.mem_filter]
  · intro u
    unfold yt_transcript
    rw [if_neg (by simp [hsub]), if_pos hasr, if_neg (by simp [hsub]), if_pos hasr]
    rfl

/-- C1 witness: the cleanup guarantee at a concrete successful ASR run. -/
theorem C1_asr_cleanup_witness :
    "/tmp/audio_1.wav" ∉ (yt_transcript ⟨false, "", "none", "", 0, ""⟩
      ⟨.ok "/tmp/audio_1.wav", .ok ⟨true, "hello world transcript text", "en", 0, ""⟩, .ok ()⟩
      ⟨true, true⟩ []).2 ∧
    ∀ u, (yt_transcript ⟨false, "", "none", "", 0, ""⟩
      { (⟨.ok "/tmp/audio_1.wav", .ok ⟨true, "hello world transcript text", "en", 0, ""⟩,
         .ok ()⟩ : OrchEnv) with unlink := u }
      ⟨true, true⟩ []).1 =
      (yt_transcript ⟨false, "", "none", "", 0, ""⟩
        ⟨.ok "/tmp/audio_1.wav", .ok ⟨true, "hello world transcript text", "en", 0, ""⟩, .ok ()⟩
        ⟨true, true⟩ []).1 :=
  C1_asr_cleanup _ _ _ _ _ rfl rfl rfl (by decide) rfl

theorem packLoop_mem (maxLen : Nat) (sents : List String) :
    ∀ (ss : List String) (cur : String) (segs : List String),
      (∀ s ∈ ss, s ∈ sents) →
      (cur = "" ∨ (∃ s ∈ sents, cur = s) ∨ cur.length ≤ maxLen) →
      (∀ x ∈ segs, x.length ≤ maxLen ∨ ∃ s ∈ sents, x = pyStrip s) →
      ∀ seg ∈ packLoop maxLen ss cur segs,
        seg.length ≤ maxLen ∨ ∃ s ∈ sents, seg = pyStrip s := by
  intro ss
  induction ss with
  | nil =>
    intro cur segs _ hcur hsegs seg hseg
    unfold packLoop at hseg
    split at hseg
    · exact hsegs seg hseg
    · next hne =>
      rw [List.mem_append] at hseg
      rcases hseg with h | h
      · exact hsegs seg h
      · simp only [List.mem_singleton] at h
        subst h
        rcases hcur with rfl | ⟨s, hs, rfl⟩ | hlen
        · exact absurd rfl hne
        · exact Or.inr ⟨cur, hs, rfl⟩
        · exact Or.inl (le_trans (pyStrip_length_le cur) hlen)
  | cons s rest ih =>
    intro cur segs hss hcur hsegs seg hseg
    have hs_mem : s ∈ sents := hss s (List.mem_cons_self _ _)
    have hrest : ∀ t ∈ rest, t ∈ sents := fun t ht => hss t (List.mem_cons_of_mem _ ht)
    unfold packLoop at hseg
    split at hseg
    · next hov =>
      split at hseg
      · -- current segment empty: the long sentence is emitted alone
        refine ih "" (segs ++ [pyStrip s]) hrest (Or.inl rfl) ?_ seg hseg
        intro x hx
        rw [List.mem_append] at hx
        rcases hx with h | h
        · exact hsegs x h
        · simp only [List.mem_singleton] at h
          subst h
          exact Or.inr ⟨s, hs_mem, rfl⟩
      · next hne =>
        refine ih s (segs ++ [pyStrip cur]) hrest (Or.inr (Or.inl ⟨s, hs_mem, rfl⟩))
          ?_ seg hseg
        intro x hx
        rw [List.mem_append] at hx
        rcases hx with h | h
        · exact hsegs x h
        · simp only [List.mem_singleton] at h
          subst h
          rcases hcur with rfl | ⟨t, ht, rfl⟩ | hlen
          · exact absurd rfl hne
          · exact Or.inr ⟨cur, ht, rfl⟩
          · exact Or.inl (le_trans (pyStrip_length_le _) hlen)
    · next hov =>
      split at hseg
      · exact ih s segs hrest (Or.inr (Or.inl ⟨s, hs_mem, rfl⟩)) hsegs seg hseg
      · refine ih (cur ++ " " ++ s) segs hrest (Or.inr (Or.inr ?_)) hsegs seg hseg
        have hlen : (cur ++ " " ++ s).length = cur.length + 1 + s.length := by
          rw [String.length_append, String.length_append]
          rfl
        omega

/-- C9: `segment_transcript` returns the empty list on empty input; on
`"First. Second. Third."` with `max_segment_length = 10` every returned
segment ends in `.`, `!` or `?` (sentence boundaries are respected even
when the limit is exceeded); and in general every returned segment either
fits within the limit (greedy packing) or is a single stripped sentence
of the `(?<=[.!?])\s+` split, emitted alone rather than split
mid-sentence. -/
theorem C9_segment_transcript (text : String) (maxLen : Nat) :
    segment_transcript "" maxLen = [] ∧
    (segment_transcript "First. Second. Third." 10).all endsSentPunct = true ∧
    (∀ seg ∈ segment_transcript text maxLen,
      seg.length ≤ maxLen ∨ ∃ s ∈ sentencesOf text, seg = pyStrip s) := by
  refine ⟨rfl, by decide, ?_⟩
  intro seg hseg
  unfold segment_transcript at hseg
  split at hseg
  · simp at hseg
  · exact packLoop_mem maxLen (sentencesOf text) (sentencesOf text) "" []
      (fun s hs => hs) (Or.inl rfl) (by simp) seg hseg

/-- C9 witness: the segmentation properties applied to the boundary
example's first segment. -/
theorem C9_segment_transcript_witness :
    "First." ∈ segment_transcript "First. Second. Third." 10 ∧
    ("First.".length ≤ 10 ∨
      ∃ s ∈ sentencesOf "First. Second. Third.", "First." = pyStrip s) :=
  ⟨by decide,
   (C9_segment_transcript "First. Second. Third." 10).2.2 "First." (by decide)⟩

theorem collapseRunsBy_ws_mem (l : List Char) :
    ∀ (flag : Bool), ∀ c ∈ collapseRunsBy isPyWs [' '] flag l, c = ' ' ∨ isPyWs c = false := by
  induction l with
  | nil => intro flag c hc; simp [collapseRunsBy] at hc
  | cons a rest ih =>
    intro flag c hc
    unfold collapseRunsBy at hc
    split at hc
    · rw [List.mem_append] at hc
      rcases hc with h | h
      · cases flag
        · simp only [if_neg Bool.false_ne_true, List.mem_singleton] at h
          exact Or.inl h
        · simp at h
      · exact ih true c h
    · next ha =>
      rcases List.mem_cons.mp hc with rfl | h
      · exact Or.inr (by simpa using ha)
      · exact ih false c h

theorem collapseRunsBy_ws_head_true (l : List Char) :
    ∀ c, (collapseRunsBy isPyWs [' '] true l).head? = some c → isPyWs c = false := by
  induction l with
  | nil => intro c hc; simp [collapseRunsBy] at hc
  | cons a rest ih =>
    intro c hc
    unfold collapseRunsBy at hc
    split at hc
    · simp only [if_pos rfl, List.nil_append] at hc
      exact ih c hc
    · next ha =>
      simp only [List.head?_cons, Option.some.injEq] at hc
      subst hc
      simpa using ha

theorem collapseRunsBy_ws_chain (l : List Char) :
    ∀ (flag : Bool),
      List.Chain' (fun a b => ¬(a = ' ' ∧ b = ' ')) (collapseRunsBy isPyWs [' '] flag l) := by
  induction l with
  | nil => intro flag; simp [collapseRunsBy]
  | cons a rest ih =>
    intro flag
    unfold collapseRunsBy
    split
    · cases flag
      · simp only [if_neg Bool.false_ne_true, List.singleton_append]
        rw [List.chain'_cons']
        refine ⟨?_, ih true⟩
        intro y hy
        have hns := collapseRunsBy_ws_head_true rest y hy
        rintro ⟨-, rfl⟩
        simp [isPyWs] at hns
      · simpa using ih true
    · next ha =>
      rw [List.chain'_cons']
      refine ⟨?_, ih false⟩
      rintro y hy ⟨rfl, -⟩
      simp [isPyWs] at ha

theorem mem_pyStripList (l : List Char) (c : Char) (h : c ∈ pyStripList l) : c ∈ l := by
  unfold pyStripList at h
  rw [List.mem_reverse] at h
  have h2 := (List.dropWhile_sublist _).subset h
  rw [List.mem_reverse] at h2
  exact (List.dropWhile_sublist _).subset h2

theorem chain'_pyStripList {R : Char → Char → Prop} (hsym : ∀ a b, R a b → R b a)
    (l : List Char) (h : List.Chain' R l) : List.Chain' R (pyStripList l) := by
  unfold pyStripList
  rw [List.chain'_reverse]
  refine List.Chain'.imp (fun a b hab => hsym a b hab) ?_
  refine List.Chain'.suffix ?_ (List.dropWhile_suffix _)
  rw [List.chain'_reverse]
  refine List.Chain'.imp (fun a b hab => hsym a b hab) ?_
  exact List.Chain'.suffix h (List.dropWhile_suffix _)

theorem head?_dropWhile_not (p : Char → Bool) (l : List Char) :
    ∀ c, (l.dropWhile p).head? = some c → p c = false := by
  induction l with
  | nil => intro c hc; simp at hc
  | cons a rest ih =>
    intro c hc
    rw [List.dropWhile_cons] at hc
    split at hc
    · exact ih c hc
    · next ha =>
      simp only [List.head?_cons, Option.some.injEq] at hc
      subst hc
      simpa using ha

theorem getLast?_dropWhile_of_ne_nil (p : Char → Bool) (l : List Char)
    (h : l.dropWhile p ≠ []) : (l.dropWhile p).getLast? = l.getLast? := by
  obtain ⟨t, ht⟩ := List.dropWhile_suffix (l := l) p
  conv_rhs => rw [← ht]
  exact (List.getLast?_append_of_ne_nil _ h).symm

theorem pyStripList_head_not_ws (l : List Char) :
    ∀ c, (pyStripList l).head? = some c → isPyWs c = false := by
  intro c hc
  unfold pyStripList at hc
  rw [List.head?_reverse] at hc
  have hne : (l.dropWhile isPyWs).reverse.dropWhile isPyWs ≠ [] := by
    intro he
    rw [he] at hc
    simp at hc
  rw [getLast?_dropWhile_of_ne_nil _ _ hne, List.getLast?_reverse] at hc
  exact head?_dropWhile_not _ _ c hc

theorem pyStripList_getLast_not_ws (l : List Char) :
    ∀ c, (pyStripList l).getLast? = some c → isPyWs c = false := by
  intro c hc
  unfold pyStripList at hc
  rw [List.getLast?_reverse] at hc
  exact head?_dropWhile_not _ _ c hc

theorem pyStripList_eq_self (l : List Char)
    (h1 : ∀ c, l.head? = some c → isPyWs c = false)
    (h2 : ∀ c, l.getLast? = some c → isPyWs c = false) :
    pyStripList l = l := by
  unfold pyStripList
  have d1 : l.dropWhile isPyWs = l := by
    cases l with
    | nil => rfl
    | cons a rest =>
      rw [List.dropWhile_cons, if_neg]
      simp [h1 a rfl]
  rw [d1]
  have d2 : l.reverse.dropWhile isPyWs = l.reverse := by
    cases hr : l.reverse with
    | nil => rfl
    | cons a rest =>
      rw [List.dropWhile_cons, if_neg]
      have ha : l.getLast? = some a := by
        rw [← List.head?_reverse, hr]
        rfl
      simp [h2 a ha]
  rw [d2, List.reverse_reverse]

theorem stripCollapse_mem (s : String) :
    ∀ x ∈ (pyStrip ⟨collapseRunsBy isPyWs [' '] false s.data⟩ : String).data,
      isPyWs x = true → x = ' ' := by
  intro x hx hws
  rcases collapseRunsBy_ws_mem s.data false x (mem_pyStripList _ x hx) with h' | h'
  · exact h'
  · rw [hws] at h'
    cases h'

theorem stripCollapse_chain (s : String) :
    List.Chain' (fun a b => ¬(a = ' ' ∧ b = ' '))
      (pyStrip ⟨collapseRunsBy isPyWs [' '] false s.data⟩ : String).data :=
  chain'_pyStripList (fun _ _ hab ⟨h1, h2⟩ => hab ⟨h2, h1⟩) _
    (collapseRunsBy_ws_chain s.data false)

theorem stripCollapse_head (s : String) :
    ∀ c, (pyStrip ⟨collapseRunsBy isPyWs [' '] false s.data⟩ : String).data.head? = some c →
      isPyWs c = false :=
  fun c hc => pyStripList_head_not_ws _ c hc

theorem stripCollapse_last (s : String) :
    ∀ c, (pyStrip ⟨collapseRunsBy isPyWs [' '] false s.data⟩ : String).data.getLast? = some c →
      isPyWs c = false :=
  fun c hc => pyStripList_getLast_not_ws _ c hc

theorem stripCollapse_strip (s : String) :
    pyStrip (pyStrip ⟨collapseRunsBy isPyWs [' '] false s.data⟩) =
      pyStrip ⟨collapseRunsBy isPyWs [' '] false s.data⟩ :=
  congrArg String.mk (pyStripList_eq_self _
    (fun c hc => pyStripList_head_not_ws _ c hc)
    (fun c hc => pyStripList_getLast_not_ws _ c hc))

theorem head_of_take (l : List Char) (n : Nat) (hn : n ≠ 0) :
    (l.take n).head? = l.head? := by
  cases l with
  | nil => simp
  | cons a as =>
    cases n with
    | zero => exact absurd rfl hn
    | succ m => rfl

theorem truncProps (X : String)
    (hmem : ∀ x ∈ X.data, isPyWs x = true → x = ' ')
    (hch : List.Chain' (fun a b => ¬(a = ' ' ∧ b = ' ')) X.data)
    (hhead : ∀ c, X.data.head? = some c → isPyWs c = false)
    (hlen : 1000 < X.length) :
    (pyTake X 1000 ++ "...").length = 1003 ∧
    (∀ x ∈ (pyTake X 1000 ++ "...").data, isPyWs x = true → x = ' ') ∧
    List.Chain' (fun a b => ¬(a = ' ' ∧ b = ' ')) (pyTake X 1000 ++ "...").data ∧
    pyStrip (pyTake X 1000 ++ "...") = pyTake X 1000 ++ "..." ∧
    "...".data <:+ (pyTake X 1000 ++ "...").data := by
  have hdata : (pyTake X 1000 ++ "...").data = X.data.take 1000 ++ "...".data :=
    String.data_append _ _
  refine ⟨?_, ?_, ?_, ?_, ?_⟩
  · rw [String.length_append]
    have h1 : (pyTake X 1000).length = min 1000 X.length := by
      show (X.data.take 1000).length = _
      rw [List.length_take]
      rfl
    rw [h1]
    have h3 : ("..." : String).length = 3 := rfl
    omega
  · intro x hx hws
    rw [hdata, List.mem_append] at hx
    rcases hx with h | h
    · exact hmem x (List.take_subset _ _ h) hws
    · have hx' : x = '.' := by simpa using h
      subst hx'
      cases hws
  · rw [hdata, List.chain'_append]
    refine ⟨ List.Chain'.prefix hch (List.take_prefix _ _), ?_, ?_⟩
    · have hR : ∀ y : Char, ¬('.' = ' ' ∧ y = ' ') := fun y hy => absurd hy.1 (by decide)
      exact List.chain'_cons.mpr ⟨hR _, List.chain'_cons.mpr ⟨hR _, List.chain'_singleton _⟩⟩
    · intro x _ y hy
      simp at hy
      subst hy
      rintro ⟨-, h⟩
      cases h
  · -- the truncated text is trimmed: its first character is the
    -- (non-whitespace) first character of X, its last is '.'
    refine congrArg String.mk (pyStripList_eq_self _ ?_ ?_)
    · intro c hc
      rw [hdata] at hc
      have htake_ne : X.data.take 1000 ≠ [] := by
        intro he
        have hl := congrArg List.length he
        rw [List.length_take] at hl
        have hXlen : X.data.length = X.length := rfl
        simp at hl
        omega
      rw [List.head?_append_of_ne_nil _ htake_ne, head_of_take _ _ (by decide)] at hc
      exact hhead c hc
    · intro c hc
      rw [hdata, List.getLast?_append_of_ne_nil _ (by decide)] at hc
      simp at hc
      subst hc
      decide
  · rw [hdata]
    exact List.suffix_append _ _

theorem cleanDescription_props (d : String) :
    (cleanDescription d).length ≤ 1003 ∧
    (∀ x ∈ (cleanDescription d).data, isPyWs x = true → x = ' ') ∧
    List.Chain' (fun a b => ¬(a = ' ' ∧ b = ' ')) (cleanDescription d).data ∧
    pyStrip (cleanDescription d) = cleanDescription d ∧
    ((cleanDescription d).length ≤ 1000 ∨
      ((cleanDescription d).length = 1003 ∧ "...".data <:+ (cleanDescription d).data)) := by
  unfold cleanDescription
  dsimp only
  split
  · next hlen =>
    obtain ⟨t1, t2, t3, t4, t5⟩ :=
      truncProps _ (stripCollapse_mem _) (stripCollapse_chain _) (stripCollapse_head _) hlen
    exact ⟨le_of_eq t1, t2, t3, t4, Or.inr ⟨t1, t5⟩⟩
  · next hlen =>
    push_neg at hlen
    exact ⟨by omega, stripCollapse_mem _, stripCollapse_chain _, stripCollapse_strip _,
      Or.inl hlen⟩

/-- C10: when the description branch of `extract_subtitles` is taken (raw
description over 50 stripped characters), the returned text is the
cleaned description, not the raw one: the only whitespace left is single
spaces (newline runs and whitespace runs collapsed, no two adjacent
spaces), the text is trimmed, URLs are stripped (concrete example), and a
clean result longer than 1000 characters is truncated to its first 1000
characters plus `"..."` — so the returned text never exceeds 1003
characters. -/
theorem C10_description_text (d : String) (_hlong : 50 < (pyStrip d).length) :
    (descriptionResult d).text = cleanDescription d ∧
    (cleanDescription d).length ≤ 1003 ∧
    (∀ x ∈ (cleanDescription d).data, isPyWs x = true → x = ' ') ∧
    List.Chain' (fun a b => ¬(a = ' ' ∧ b = ' ')) (cleanDescription d).data ∧
    pyStrip (cleanDescription d) = cleanDescription d ∧
    ((cleanDescription d).length ≤ 1000 ∨
      ((cleanDescription d).length = 1003 ∧ "...".data <:+ (cleanDescription d).data)) ∧
    cleanDescription "Check https://example.com/watch?v=abc and http://x.y for info\n\nmore  text"
      = "Check and for info more text" := by
  obtain ⟨p1, p2, p3, p4, p5⟩ := cleanDescription_props d
  exact ⟨rfl, p1, p2, p3, p4, p5, by decide⟩

/-- C10 witness: the description cleaning applied to a concrete raw
description longer than 50 characters. -/
theorem C10_description_text_witness :
    (descriptionResult "This video is about verified software and it has quite a long description indeed").text = cleanDescription "This video is about verified software and it has quite a long description indeed" ∧
    (cleanDescription "This video is about verified software and it has quite a long description indeed").length ≤ 1003 :=
  ⟨(C10_description_text "This video is about verified software and it has quite a long description indeed" (by decide)).1,
   (C10_description_text "This video is about verified software and it has quite a long description indeed" (by decide)).2.1⟩

end ArticleI
